import Mathlib

/-!
Verification of the PureSkin backend favorites/analysis gateway.

This file is a shallow embedding of the Express controllers, the Mongoose
favorite model, the auth middleware and the nlp proxy service of the
repository, together with theorems checking the specification claims
against the embedded code.

Conventions of the embedding:
- Mongo ObjectIds are modelled as Nat (document ids, user ids) or as the
  String keys the code compares; timestamps are logical Nat ticks.
- The external analysis engine, jwt verification and multer parsing are
  external collaborators: their outcomes are explicit inputs.
- JSON response bodies are records whose fields mirror the JSON fields
  the handlers emit; the distinct literal message strings of the source
  are one constructor each of the Msg type.
-/

set_option linter.unusedVariables false

/-- Literal response messages produced by the backend (JSON msg/message
fields), one constructor per distinct source string literal. -/
inductive Msg where
  /-- Source literal: Ce produit est déjà dans vos favoris ! (addFavorite pre-check hit) -/
  | ceProduitDejaDansVosFavoris
  /-- Source literal: Produit déjà en favoris (addFavorite duplicate-key 11000 branch) -/
  | produitDejaEnFavoris
  /-- Source literal: Erreur serveur -/
  | erreurServeur
  /-- Source literal: Favori non trouvé -/
  | favoriNonTrouve
  /-- Source literal: Non autorisé (deleteFavorite ownership mismatch, removeFromFavorites missing user) -/
  | nonAutorise
  /-- Source literal: Favori supprimé -/
  | favoriSupprime
  /-- Source literal: Déjà favori (addToFavorites pre-check hit) -/
  | dejaFavori
  /-- Source literal: Connectez-vous (analysis favorites handlers, missing req.userId) -/
  | connectezVous
  /-- Source literal: Ajouté aux favoris -/
  | ajouteAuxFavoris
  /-- Source literal: Erreur favoris (addToFavorites catch-all) -/
  | erreurFavoris
  /-- Source literal: Retiré des favoris -/
  | retireDesFavoris
  /-- Source literal: Non autorisé, token invalide (protect, jwt.verify threw) -/
  | nonAutoriseTokenInvalide
  /-- Source literal: Non autorisé, aucun token (protect, no bearer token) -/
  | nonAutoriseAucunToken
  /-- Source literal: Ingrédients requis pour trouver des dupes. (getDupes validation) -/
  | ingredientsRequis
  /-- Source literal: Texte requis (getSentiment validation) -/
  | texteRequis
  /-- Source literal: Aucune image fournie. (scanImage, no file) -/
  | aucuneImageFournie
  /-- Source literal: L image est trop volumineuse (max 10MB) (scanImage size check) -/
  | imageTropVolumineuse
  /-- Message of the multer LIMIT_FILE_SIZE error: File too large -/
  | fileTooLarge
  deriving DecidableEq

/-- One document of the favorites collection (models/Favorite.js).
`id` stands for the Mongo generated _id; `addedAt` has schema default
Date.now and `createdAt` is set by the timestamps option at save time.
The free-form metadata map, unused by the gateway logic, is omitted.
`price` and `similarity` are modelled as integers (no claim touches
their fractional part); the min/max bounds the schema declares on them
are validators run by the save path, see favValidate. -/
structure Favorite where
  id : Nat
  userId : Nat
  productId : String
  productName : String
  brandName : String
  price : Int
  originalPrice : Option Int := none
  ingredients : String := ""
  similarity : Int := 0
  category : String := "Unknown"
  productType : String := "unknown"
  source : String := "dupe_finder"
  addedAt : Nat
  createdAt : Nat
  notes : String := ""
  deriving DecidableEq

/-- A JSON response of the favorites endpoints and of the auth middleware:
the HTTP status plus the body fields those handlers can emit. A none /
false default means the field is absent from the emitted JSON. -/
structure Response where
  status : Nat
  message : Option Msg := none
  success : Option Bool := none
  alreadyExists : Bool := false
  favoriteDoc : Option Favorite := none
  favoriteList : Option (List Favorite) := none
  deriving DecidableEq

/-- Model of the JS String trim: drop whitespace characters from both
ends. Defined over the character list so that it evaluates by kernel
reduction. -/
def jsTrim (s : String) : String :=
  ⟨((s.toList.dropWhile Char.isWhitespace).reverse.dropWhile Char.isWhitespace).reverse⟩

/-- The Mongoose schema validation of models/Favorite.js, run by
favorite.save() before anything reaches the collection: the required
string fields must be non-empty (the trim setters have already been
applied at assignment), price and originalPrice carry min 0,
similarity min 0 and max 1, and source must be one of the enum values.
userId and the number fields being required is carried by the model
types themselves. -/
def favValidate (f : Favorite) : Bool :=
  (f.productId != "") && (f.productName != "") && (f.brandName != "") &&
  decide (0 ≤ f.price) &&
  (match f.originalPrice with
   | none => true
   | some v => decide (0 ≤ v)) &&
  decide (0 ≤ f.similarity) && decide (f.similarity ≤ 1) &&
  (f.source == "dupe_finder" || f.source == "scanner" || f.source == "manual")

/-- How favorite.save() fails: a Mongoose ValidationError (no driver
error code) when the schema validators reject the document, or the
driver duplicate-key error with code 11000 from the unique compound
(userId, productId) index of models/Favorite.js. -/
inductive SaveError where
  | validation
  | duplicateKey
  deriving DecidableEq

/-- favorite.save(): Mongoose runs the schema validation first; only a
valid document is sent to the collection, where the unique compound
index on (userId, productId) may still reject it with error code
11000. Generated _id freshness is the callers responsibility. -/
def favSave (db : List Favorite) (f : Favorite) : Except SaveError (List Favorite) :=
  if favValidate f then
    if db.any (fun g => g.userId == f.userId && g.productId == f.productId) then
      .error .duplicateKey
    else
      .ok (db ++ [f])
  else
    .error .validation

/-- JS `x || d` for an optional string: undefined and the empty string
both fall back to the default. -/
def orDefault (x : Option String) (d : String) : String :=
  match x with
  | none => d
  | some s => if s == "" then d else s

/-- Request body of POST /api/favorites (userController addFavorite).
The model covers requests that supply product_name, the key the
pre-check query uses. -/
structure AddBody where
  product_name : String
  brand_name : Option String := none
  price : Option Int := none
  ingredients : Option String := none
  category : Option String := none
  similarity : Option Int := none
  product_id : Option String := none
  deriving DecidableEq

/-- The document userController addFavorite constructs: the fallback
defaults mirror the JS || defaults (so an absent or empty product_id
falls back to the generated ObjectId), and the trim setters of the
productName and brandName schema fields apply at assignment; `freshId`
stands for the freshly generated ObjectId string, `docId` for the
Mongo _id of the saved document and `now` for the save time (both the
addedAt schema default and the createdAt timestamp). -/
def addFavoriteDoc (uid : Nat) (b : AddBody) (freshId : String) (docId : Nat) (now : Nat) : Favorite :=
  { id := docId
    userId := uid
    productId := orDefault b.product_id freshId
    productName := jsTrim (if b.product_name == "" then "Nom inconnu" else b.product_name)
    brandName := jsTrim (orDefault b.brand_name "Marque inconnue")
    price := b.price.getD 0
    ingredients := b.ingredients.getD ""
    category := orDefault b.category "Skincare"
    similarity := b.similarity.getD 0
    source := "dupe_finder"
    addedAt := now
    createdAt := now }

/-- userController.addFavorite (POST /api/favorites). `uid` is the
authenticated user id supplied by the protect middleware. Returns the
HTTP response and the store after the call. The pre-check queries by
productName; the save is guarded by the (userId, productId) unique
index, and a duplicate-key error 11000 is mapped to a 400 response. -/
def addFavorite (uid : Nat) (b : AddBody) (db : List Favorite) (freshId : String) (docId : Nat) (now : Nat) : Response × List Favorite :=
  if db.any (fun g => g.userId == uid && g.productName == b.product_name) then
    ({ status := 400, message := some .ceProduitDejaDansVosFavoris }, db)
  else
    match favSave db (addFavoriteDoc uid b freshId docId now) with
    | .ok db2 =>
      ({ status := 201, favoriteDoc := some (addFavoriteDoc uid b freshId docId now) }, db2)
    | .error e =>
      if e == .duplicateKey then
        ({ status := 400, message := some .produitDejaEnFavoris }, db)
      else
        ({ status := 500, message := some .erreurServeur }, db)

/-- Descending insertion of a document into a list already sorted by a
Nat key: auxiliary step of the model of a Mongo sort on that key. -/
def insertDescBy (key : Favorite → Nat) (f : Favorite) : List Favorite → List Favorite
  | [] => [f]
  | g :: gs => if key g < key f then f :: g :: gs else g :: insertDescBy key f gs

/-- Model of a Mongo sort with direction -1 on the given Nat key:
returns the documents in descending key order. -/
def sortDescBy (key : Favorite → Nat) : List Favorite → List Favorite
  | [] => []
  | f :: fs => insertDescBy key f (sortDescBy key fs)

/-- userController.getMyFavorites (GET /api/favorites):
Favorite.find({userId}).sort({createdAt: -1}). -/
def getMyFavorites (uid : Nat) (db : List Favorite) : Response :=
  { status := 200
    favoriteList := some (sortDescBy (fun f => f.createdAt) (db.filter (fun f => f.userId == uid))) }

/-- userController.deleteFavorite (DELETE /api/favorites/:id): find the
document by _id; 404 when absent, 401 when the caller is not the owner,
otherwise delete that one document and answer 200. -/
def deleteFavorite (uid : Nat) (favId : Nat) (db : List Favorite) : Response × List Favorite :=
  match db.find? (fun f => f.id == favId) with
  | none => ({ status := 404, message := some .favoriNonTrouve }, db)
  | some f =>
    if f.userId != uid then
      ({ status := 401, message := some .nonAutorise }, db)
    else
      ({ status := 200, message := some .favoriSupprime }, db.eraseP (fun g => g.id == favId))

/-- C3: a remove request on a favorite id by a verified identity answers
404 when no favorite with that id exists, and 401 (the ownership error,
distinguishable from the 404 of genuine absence) with the store left
unchanged when the favorite exists but belongs to another user. -/
theorem deleteFavorite_notfound_forbidden :
    ∀ (uid favId : Nat) (db : List Favorite),
      (db.find? (fun f => f.id == favId) = none →
        deleteFavorite uid favId db = ({ status := 404, message := some .favoriNonTrouve }, db)) ∧
      (∀ f, db.find? (fun f => f.id == favId) = some f → f.userId ≠ uid →
        deleteFavorite uid favId db = ({ status := 401, message := some .nonAutorise }, db)) := by
  intro uid favId db
  constructor
  · intro h
    simp [deleteFavorite, h]
  · intro f h hne
    simp [deleteFavorite, h, bne_iff_ne, hne]

/-- A concrete favorite used to instantiate theorems: id 7, owned by
user 1, product key p1, created at tick 3. -/
def sampleFav : Favorite :=
  { id := 7, userId := 1, productId := "p1", productName := "P", brandName := "B",
    price := 0, addedAt := 3, createdAt := 3 }

/-- Concrete instantiation of the C3 theorem: a one-favorite store owned
by user 1, probed with a missing id and by the non-owner 2. -/
theorem deleteFavorite_notfound_forbidden_witness :
    deleteFavorite 2 9 [sampleFav] =
      ({ status := 404, message := some .favoriNonTrouve }, [sampleFav]) ∧
    deleteFavorite 2 7 [sampleFav] =
      ({ status := 401, message := some .nonAutorise }, [sampleFav]) :=
  ⟨(deleteFavorite_notfound_forbidden 2 9 _).1 (by decide),
   (deleteFavorite_notfound_forbidden 2 7 _).2 sampleFav (by decide) (by decide)⟩

/-- Request body of POST /api/analysis/favorites (analysisController
addToFavorites). The model covers requests that supply the fields the
handler reads directly. -/
structure AnalysisFavBody where
  productId : String
  productName : String
  brandName : String
  price : Option Int := none
  ingredients : String := ""
  similarity : Int := 0
  deriving DecidableEq

/-- The document analysisController.addToFavorites constructs: fields
are taken from the body, price falls back to 0, addedAt is set to the
request time explicitly and createdAt by the timestamps option. -/
def addToFavoritesDoc (uid : Nat) (b : AnalysisFavBody) (docId : Nat) (now : Nat) : Favorite :=
  { id := docId
    userId := uid
    productId := b.productId
    productName := jsTrim b.productName
    brandName := jsTrim b.brandName
    price := b.price.getD 0
    ingredients := b.ingredients
    similarity := b.similarity
    source := "dupe_finder"
    addedAt := now
    createdAt := now }

/-- analysisController.addToFavorites handler. `userId` is req.userId.
The final Bool records whether the favorites store was touched. The
pre-check queries by (userId, productId); on a hit it answers 200 with
an alreadyExists flag. Any error thrown by the save, including the
duplicate-key error of the unique index, lands in the generic catch
and answers 500. -/
def addToFavorites (userId : Option Nat) (b : AnalysisFavBody) (db : List Favorite) (docId : Nat) (now : Nat) : Response × List Favorite × Bool :=
  match userId with
  | none => ({ status := 401, message := some .connectezVous }, db, false)
  | some uid =>
    if db.any (fun g => g.userId == uid && g.productId == b.productId) then
      ({ status := 200, message := some .dejaFavori, alreadyExists := true }, db, true)
    else
      match favSave db (addToFavoritesDoc uid b docId now) with
      | .ok db2 =>
        ({ status := 201, success := some true, message := some .ajouteAuxFavoris,
           favoriteDoc := some (addToFavoritesDoc uid b docId now) }, db2, true)
      | .error _ =>
        ({ status := 500, success := some false, message := some .erreurFavoris }, db, true)

/-- analysisController.removeFromFavorites handler:
findOneAndDelete({userId, productId}) removes the first matching
document, if any, and the handler answers 200 unconditionally. -/
def removeFromFavorites (userId : Option Nat) (pid : String) (db : List Favorite) : Response × List Favorite × Bool :=
  match userId with
  | none => ({ status := 401, message := some .nonAutorise }, db, false)
  | some uid =>
    ({ status := 200, success := some true, message := some .retireDesFavoris },
     db.eraseP (fun f => f.userId == uid && f.productId == pid), true)

/-- analysisController.getFavorites handler:
Favorite.find({userId}).sort({addedAt: -1}). -/
def getFavorites (userId : Option Nat) (db : List Favorite) : Response × Bool :=
  match userId with
  | none => ({ status := 401, message := some .connectezVous }, false)
  | some uid =>
    ({ status := 200, success := some true,
       favoriteList := some (sortDescBy (fun f => f.addedAt) (db.filter (fun f => f.userId == uid))) }, true)

/-- One user document of the users collection. -/
structure User where
  id : Nat
  name : String
  email : String
  password : String
  deriving DecidableEq

/-- The value protect attaches to req.user: the user document with the
password field deselected (select with -password). -/
structure Identity where
  id : Nat
  name : String
  email : String
  deriving DecidableEq

/-- Outcome of jwt.verify on the extracted token: external capability,
either the decoded payload id or a thrown error (bad signature,
expired, malformed token). -/
inductive VerifyOutcome where
  | ok (uid : Nat)
  | fails
  deriving DecidableEq

/-- The Authorization header of an incoming request. -/
inductive AuthHeader where
  | missing
  | notBearer (value : String)
  | bearer (v : VerifyOutcome)
  deriving DecidableEq

/-- Result of running the protect middleware: either it responded itself
and the downstream handler never runs, or it called next() with req.user
set to the looked-up identity — none when the principal no longer
exists, since User.findById then resolves to null. -/
inductive ProtectOutcome where
  | respond (r : Response)
  | proceed (user : Option Identity)
  deriving DecidableEq

/-- middleware protect (src/unnamed/part_001): extract the bearer token,
verify it, look the user up without the password field, and call next();
a missing or non-Bearer header or a failed verification answers 401. -/
def protect (users : List User) (h : AuthHeader) : ProtectOutcome :=
  match h with
  | .missing => .respond { status := 401, message := some .nonAutoriseAucunToken }
  | .notBearer _ => .respond { status := 401, message := some .nonAutoriseAucunToken }
  | .bearer v =>
    match v with
    | .fails => .respond { status := 401, message := some .nonAutoriseTokenInvalide }
    | .ok uid =>
      .proceed ((users.find? (fun u => u.id == uid)).map
        (fun u => { id := u.id, name := u.name, email := u.email }))

/-- POST /api/analysis/favorites as mounted in the analysis router
(src/unnamed/part_001): the route attaches no middleware, and no
middleware anywhere in the repository assigns req.userId (protect sets
req.user), so the handler runs with none for it whatever credential the
request carries. -/
def analysisFavoritesAddRoute (h : AuthHeader) (b : AnalysisFavBody) (db : List Favorite) (docId now : Nat) : Response × List Favorite × Bool :=
  addToFavorites none b db docId now

/-- GET /api/analysis/favorites as mounted in the analysis router: same
situation as the add route, req.userId is never set. -/
def analysisFavoritesListRoute (h : AuthHeader) (db : List Favorite) : Response × Bool :=
  getFavorites none db

/-- DELETE /api/analysis/favorites/:productId as mounted in the analysis
router: same situation, req.userId is never set. -/
def analysisFavoritesRemoveRoute (h : AuthHeader) (pid : String) (db : List Favorite) : Response × List Favorite × Bool :=
  removeFromFavorites none pid db

/-- C10: every request to the favorites endpoints of the analysis router
answers 401 whatever credential it carries, with the store never
queried and never changed, because those routes attach no middleware
and nothing sets the req.userId field the handlers require. -/
theorem analysis_favorites_routes_401 :
    ∀ (h : AuthHeader) (b : AnalysisFavBody) (db : List Favorite) (docId now : Nat) (pid : String),
      analysisFavoritesAddRoute h b db docId now =
        ({ status := 401, message := some .connectezVous }, db, false) ∧
      analysisFavoritesListRoute h db =
        ({ status := 401, message := some .connectezVous }, false) ∧
      analysisFavoritesRemoveRoute h pid db =
        ({ status := 401, message := some .nonAutorise }, db, false) := by
  intro h b db docId now pid
  exact ⟨rfl, rfl, rfl⟩

/-- C6: the protect middleware does not reject a verified credential
whose principal no longer exists; it calls next() with req.user null,
so the downstream handler runs without an identity instead of receiving
the 401 InvalidCredential answer the specification describes. Shown at
the concrete input of an empty user store and a correctly verifying
token for the deleted user id 7. -/
theorem protect_deleted_principal_proceeds :
    protect [] (.bearer (.ok 7)) = .proceed none ∧
    protect [] .missing = .respond { status := 401, message := some .nonAutoriseAucunToken } := by
  exact ⟨rfl, rfl⟩

/-- Erasing by a predicate that holds nowhere in the list is the
identity: the second findOneAndDelete of an already removed favorite
touches nothing. -/
theorem eraseP_of_no_match (p : Favorite → Bool) :
    ∀ l : List Favorite, (∀ f ∈ l, p f = false) → l.eraseP p = l := by
  intro l
  induction l with
  | nil => intro h; rfl
  | cons a l ih =>
    intro h
    have ha : p a = false := h a (List.mem_cons_self a l)
    rw [List.eraseP_cons, ha, cond_false, ih (fun f hf => h f (List.mem_cons_of_mem a hf))]

/-- Erasing by a predicate keeps every element the predicate rejects:
a remove call leaves every other stored record intact. -/
theorem mem_eraseP_of_false (p : Favorite → Bool) :
    ∀ (l : List Favorite) (f : Favorite), f ∈ l → p f = false → f ∈ l.eraseP p := by
  intro l
  induction l with
  | nil => intro f hf _; cases hf
  | cons a l ih =>
    intro f hf hp
    rcases List.mem_cons.1 hf with rfl | hmem
    · simp [List.eraseP_cons, hp]
    · by_cases ha : p a
      · simpa [List.eraseP_cons, ha] using hmem
      · simp only [List.eraseP_cons, ha, cond_false]
        exact List.mem_cons_of_mem a (ih f hmem hp)

/-- C4 counterexample: remove is not idempotent on the main favorites
route. After user 1 removes favorite 7 (a 200 success that empties the
store), the identical second remove answers 404, an error, not success. -/
theorem deleteFavorite_second_call_404 :
    (deleteFavorite 1 7 [sampleFav]).1.status = 200 ∧
    (deleteFavorite 1 7 (deleteFavorite 1 7 [sampleFav]).2).1.status = 404 ∧
    (deleteFavorite 1 7 (deleteFavorite 1 7 [sampleFav]).2).1.status ≠ 200 := by
  decide

/-- C4 amended: on the analysis route, removing an already removed
(owner, productId) pair answers 200 success with the store untouched,
and any remove keeps every record of a different key; on the main
route, the second remove of the same favorite id answers 404 with the
store unchanged, so every other record is intact there as well. -/
theorem remove_idempotence_amended :
    ∀ (uid : Nat) (pid : String) (db : List Favorite),
      ((∀ f ∈ db, ¬(f.userId = uid ∧ f.productId = pid)) →
        removeFromFavorites (some uid) pid db =
          ({ status := 200, success := some true, message := some .retireDesFavoris }, db, true)) ∧
      (∀ f ∈ db, ¬(f.userId = uid ∧ f.productId = pid) →
        f ∈ (removeFromFavorites (some uid) pid db).2.1) ∧
      (∀ favId : Nat, db.find? (fun f => f.id == favId) = none →
        deleteFavorite uid favId db = ({ status := 404, message := some .favoriNonTrouve }, db)) := by
  intro uid pid db
  refine ⟨?_, ?_, ?_⟩
  · intro h
    have hall : ∀ f ∈ db, (fun f => f.userId == uid && f.productId == pid) f = false := by
      intro f hf
      have := h f hf
      simp only [Bool.and_eq_false_iff, beq_eq_false_iff_ne, ne_eq]
      by_cases hu : f.userId = uid
      · right; intro hp; exact this ⟨hu, hp⟩
      · left; exact hu
    simp [removeFromFavorites, eraseP_of_no_match _ db hall]
  · intro f hf hnot
    have hp : (fun f => f.userId == uid && f.productId == pid) f = false := by
      simp only [Bool.and_eq_false_iff, beq_eq_false_iff_ne, ne_eq]
      by_cases hu : f.userId = uid
      · right; intro hpid; exact hnot ⟨hu, hpid⟩
      · left; exact hu
    simpa [removeFromFavorites] using mem_eraseP_of_false _ db f hf hp
  · intro favId h
    simp [deleteFavorite, h]

/-- Concrete instantiation of the amended C4 theorem: user 1 removing
the absent key p9 from the one-favorite store, the favorite with key p1
surviving a remove of p9, and a remove of the absent id 9. -/
theorem remove_idempotence_amended_witness :
    removeFromFavorites (some 1) "p9" [sampleFav] =
      ({ status := 200, success := some true, message := some .retireDesFavoris }, [sampleFav], true) ∧
    sampleFav ∈ (removeFromFavorites (some 1) "p9" [sampleFav]).2.1 ∧
    deleteFavorite 1 9 [sampleFav] =
      ({ status := 404, message := some .favoriNonTrouve }, [sampleFav]) :=
  ⟨(remove_idempotence_amended 1 "p9" [sampleFav]).1 (by decide),
   (remove_idempotence_amended 1 "p9" [sampleFav]).2.1 sampleFav (by decide) (by decide),
   (remove_idempotence_amended 1 "p9" [sampleFav]).2.2 9 (by decide)⟩

/-- A request body resubmitting the name of the already stored
sampleFav product. -/
def resubmitBody : AddBody := { product_name := "P" }

/-- A request body with a new display name but the product key p1 that
sampleFav already occupies: it passes the name pre-check and conflicts
on the unique (userId, productId) index at save time. -/
def idClashBody : AddBody := { product_name := "Q", product_id := some "p1" }

/-- An analysis-route body resubmitting the product key p1 of
sampleFav. -/
def analysisResubmitBody : AnalysisFavBody :=
  { productId := "p1", productName := "X", brandName := "Y" }

/-- C1 counterexample: user 1 re-adding the already stored product P on
the main favorites route gets HTTP 400 with no alreadyExists flag, a
failure status instead of the claimed non-error 200 already-exists
signal. -/
theorem addFavorite_conflict_not_ok200 :
    (addFavorite 1 resubmitBody [sampleFav] "f2" 8 9).1.status = 400 ∧
    (addFavorite 1 resubmitBody [sampleFav] "f2" 8 9).1.status ≠ 200 ∧
    (addFavorite 1 resubmitBody [sampleFav] "f2" 8 9).1.alreadyExists = false := by
  decide

/-- Projection facts of the document addFavorite constructs, relating
the save path conditions to the request body. -/
theorem addFavoriteDoc_userId (uid : Nat) (b : AddBody) (f : String) (d n : Nat) :
    (addFavoriteDoc uid b f d n).userId = uid := rfl

/-- The product key of the constructed document: the supplied
product_id unless absent or empty, else the generated ObjectId. -/
theorem addFavoriteDoc_productId (uid : Nat) (b : AddBody) (f : String) (d n : Nat) :
    (addFavoriteDoc uid b f d n).productId = orDefault b.product_id f := rfl

/-- The product name of the constructed document: the supplied name
with the default fallback, trimmed by the schema setter. -/
theorem addFavoriteDoc_productName (uid : Nat) (b : AddBody) (f : String) (d n : Nat) :
    (addFavoriteDoc uid b f d n).productName =
      jsTrim (if b.product_name == "" then "Nom inconnu" else b.product_name) := rfl

/-- C1 amended: on the main favorites route, an add whose product name
already matches a stored favorite of the owner answers HTTP 400 with a
duplicate message and the store unchanged, and an add that passes the
name pre-check and then, its document passing the schema validation,
violates the (userId, productId) unique index at save time also
answers HTTP 400 (the duplicate-key error 11000 mapped to a 400
duplicate message), never a 200 already-exists signal; only the
analysis-route add answers the pre-check conflict with HTTP 200 and an
explicit alreadyExists flag, the store unchanged. -/
theorem addFavorite_duplicate_signals :
    ∀ (uid : Nat) (b : AddBody) (db : List Favorite) (freshId : String) (docId now : Nat) (ab : AnalysisFavBody),
      (db.any (fun g => g.userId == uid && g.productName == b.product_name) = true →
        addFavorite uid b db freshId docId now =
          ({ status := 400, message := some .ceProduitDejaDansVosFavoris }, db)) ∧
      (db.any (fun g => g.userId == uid && g.productName == b.product_name) = false →
        favValidate (addFavoriteDoc uid b freshId docId now) = true →
        db.any (fun g => g.userId == uid && g.productId == orDefault b.product_id freshId) = true →
        addFavorite uid b db freshId docId now =
          ({ status := 400, message := some .produitDejaEnFavoris }, db)) ∧
      (db.any (fun g => g.userId == uid && g.productId == ab.productId) = true →
        addToFavorites (some uid) ab db docId now =
          ({ status := 200, message := some .dejaFavori, alreadyExists := true }, db, true)) := by
  intro uid b db freshId docId now ab
  refine ⟨?_, ?_, ?_⟩
  · intro h
    simp [addFavorite, h]
  · intro h1 hv h2
    simp [addFavorite, h1, favSave, hv, addFavoriteDoc_userId, addFavoriteDoc_productId, h2]
  · intro h
    simp [addToFavorites, h]

/-- Concrete instantiation of the amended C1 theorem on the
one-favorite store of user 1: a same-name resubmission, a same-key
resubmission under a different name, and the analysis-route
resubmission. -/
theorem addFavorite_duplicate_signals_witness :
    addFavorite 1 resubmitBody [sampleFav] "f2" 8 9 =
      ({ status := 400, message := some .ceProduitDejaDansVosFavoris }, [sampleFav]) ∧
    addFavorite 1 idClashBody [sampleFav] "f3" 8 9 =
      ({ status := 400, message := some .produitDejaEnFavoris }, [sampleFav]) ∧
    addToFavorites (some 1) analysisResubmitBody [sampleFav] 8 9 =
      ({ status := 200, message := some .dejaFavori, alreadyExists := true }, [sampleFav], true) :=
  ⟨(addFavorite_duplicate_signals 1 resubmitBody [sampleFav] "f2" 8 9 analysisResubmitBody).1
     (by decide),
   (addFavorite_duplicate_signals 1 idClashBody [sampleFav] "f3" 8 9 analysisResubmitBody).2.1
     (by decide) (by decide) (by decide),
   (addFavorite_duplicate_signals 1 resubmitBody [sampleFav] "f2" 8 9 analysisResubmitBody).2.2
     (by decide)⟩

/-- Sorting three documents of strictly increasing key in descending
order reverses them. -/
theorem sortDescBy_three (key : Favorite → Nat) (f1 f2 f3 : Favorite)
    (h12 : key f1 < key f2) (h23 : key f2 < key f3) :
    sortDescBy key [f1, f2, f3] = [f3, f2, f1] := by
  have h13 : key f1 < key f3 := lt_trans h12 h23
  simp [sortDescBy, insertDescBy, Nat.lt_asymm h12, Nat.lt_asymm h23, Nat.lt_asymm h13]

/-- C5: listing the favorites of an owner who added them at times
T1 < T2 < T3 returns them most recent first, T3, T2, T1, on both list
endpoints (getMyFavorites sorting by createdAt, getFavorites sorting by
addedAt), favorites of other owners excluded. -/
theorem favorites_list_ordering :
    ∀ (uid : Nat) (f1 f2 f3 g : Favorite),
      f1.userId = uid → f2.userId = uid → f3.userId = uid → g.userId ≠ uid →
      f1.createdAt < f2.createdAt → f2.createdAt < f3.createdAt →
      f1.addedAt < f2.addedAt → f2.addedAt < f3.addedAt →
      (getMyFavorites uid [f1, g, f2, f3]).favoriteList = some [f3, f2, f1] ∧
      (getFavorites (some uid) [f1, g, f2, f3]).1.favoriteList = some [f3, f2, f1] := by
  intro uid f1 f2 f3 g h1 h2 h3 hg hc12 hc23 ha12 ha23
  have hfilter : [f1, g, f2, f3].filter (fun f => f.userId == uid) = [f1, f2, f3] := by
    simp [List.filter, h1, h2, h3, beq_eq_false_iff_ne.mpr hg]
  constructor
  · simp [getMyFavorites, hfilter, sortDescBy_three _ _ _ _ hc12 hc23]
  · simp [getFavorites, hfilter, sortDescBy_three _ _ _ _ ha12 ha23]

/-- Favorite of user 1 created at tick 1. -/
def favT1 : Favorite :=
  { id := 1, userId := 1, productId := "a", productName := "A", brandName := "B",
    price := 0, addedAt := 1, createdAt := 1 }

/-- Favorite of user 1 created at tick 2. -/
def favT2 : Favorite :=
  { id := 2, userId := 1, productId := "b", productName := "C", brandName := "B",
    price := 0, addedAt := 2, createdAt := 2 }

/-- Favorite of user 1 created at tick 3. -/
def favT3 : Favorite :=
  { id := 3, userId := 1, productId := "c", productName := "D", brandName := "B",
    price := 0, addedAt := 3, createdAt := 3 }

/-- Favorite of a different owner, user 2, created at tick 5. -/
def otherOwnerFav : Favorite :=
  { id := 4, userId := 2, productId := "d", productName := "E", brandName := "B",
    price := 0, addedAt := 5, createdAt := 5 }

/-- Concrete instantiation of the C5 theorem: user 1 with favorites
added at ticks 1 < 2 < 3 and a stray favorite of user 2 in the store. -/
theorem favorites_list_ordering_witness :
    (getMyFavorites 1 [favT1, otherOwnerFav, favT2, favT3]).favoriteList =
      some [favT3, favT2, favT1] ∧
    (getFavorites (some 1) [favT1, otherOwnerFav, favT2, favT3]).1.favoriteList =
      some [favT3, favT2, favT1] :=
  favorites_list_ordering 1 favT1 favT2 favT3 otherOwnerFav
    (by decide) (by decide) (by decide) (by decide)
    (by decide) (by decide) (by decide) (by decide)

/-- One in-flight addFavorite call: the authenticated user, the body and
the identifiers and clock tick the call would use at save time. -/
structure AddCall where
  uid : Nat
  body : AddBody
  freshId : String
  docId : Nat
  now : Nat

/-- Progress of one in-flight addFavorite call: before its pre-check,
past a passing pre-check and about to save, or finished with its
response. -/
inductive CallProgress where
  | start
  | checked
  | done (r : Response)
  deriving DecidableEq

/-- Joint state of two racing addFavorite calls against one store. -/
structure RaceState where
  db : List Favorite
  a : CallProgress
  b : CallProgress
  deriving DecidableEq

/-- The pre-check read of addFavorite as one atomic step: a conflict on
the productName of the owner finishes the call with the 400 duplicate
response, otherwise the call proceeds towards its save. -/
def addCheckStep (c : AddCall) (db : List Favorite) : CallProgress → CallProgress
  | .start =>
    if db.any (fun g => g.userId == c.uid && g.productName == c.body.product_name) then
      .done { status := 400, message := some .ceProduitDejaDansVosFavoris }
    else
      .checked
  | s => s

/-- The save of addFavorite as one atomic step against the store:
success answers 201, the duplicate-key error 11000 of the unique index
answers 400 with the duplicate message. -/
def addWriteStep (c : AddCall) (db : List Favorite) : CallProgress → List Favorite × CallProgress
  | .checked =>
    match favSave db (addFavoriteDoc c.uid c.body c.freshId c.docId c.now) with
    | .ok db2 =>
      (db2,
       .done { status := 201, favoriteDoc := some (addFavoriteDoc c.uid c.body c.freshId c.docId c.now) })
    | .error e =>
      if e == .duplicateKey then
        (db, .done { status := 400, message := some .produitDejaEnFavoris })
      else
        (db, .done { status := 500, message := some .erreurServeur })
  | s => (db, s)

/-- Which call takes the next atomic step of the race. -/
inductive RaceStep where
  | acheck
  | awrite
  | bcheck
  | bwrite
  deriving DecidableEq

/-- One scheduled step of the race between call A and call B. -/
def raceStep (ca cb : AddCall) (s : RaceState) : RaceStep → RaceState
  | .acheck => { s with a := addCheckStep ca s.db s.a }
  | .awrite =>
    match addWriteStep ca s.db s.a with
    | (db2, a2) => { s with db := db2, a := a2 }
  | .bcheck => { s with b := addCheckStep cb s.db s.b }
  | .bwrite =>
    match addWriteStep cb s.db s.b with
    | (db2, b2) => { s with db := db2, b := b2 }

/-- Run a schedule of race steps from the given initial store. -/
def runRace (ca cb : AddCall) (db0 : List Favorite) (sched : List RaceStep) : RaceState :=
  sched.foldl (raceStep ca cb) { db := db0, a := .start, b := .start }

/-- The six interleavings of the check/save pairs of two racing calls. -/
def raceSchedules : List (List RaceStep) :=
  [[.acheck, .awrite, .bcheck, .bwrite],
   [.acheck, .bcheck, .awrite, .bwrite],
   [.acheck, .bcheck, .bwrite, .awrite],
   [.bcheck, .acheck, .awrite, .bwrite],
   [.bcheck, .acheck, .bwrite, .awrite],
   [.bcheck, .bwrite, .acheck, .awrite]]

/-- A duplicate rejection of addFavorite: HTTP 400 carrying one of its
two duplicate messages (the pre-check message or the mapped
duplicate-key message). -/
def isDupReject (r : Response) : Prop :=
  r.status = 400 ∧
    (r.message = some .ceProduitDejaDansVosFavoris ∨ r.message = some .produitDejaEnFavoris)

/-- Outcome required of a race on the key (uid, pid): the final store
holds exactly one favorite with that key, and of the two calls exactly
one finished with a 201 creation while the other finished with an HTTP
400 duplicate rejection. -/
def raceConclusion (uid : Nat) (pid : String) (s : RaceState) : Prop :=
  (s.db.filter (fun f => f.userId == uid && f.productId == pid)).length = 1 ∧
    ((∃ fw, s.a = .done { status := 201, favoriteDoc := some fw } ∧
        ∃ r, s.b = .done r ∧ isDupReject r) ∨
     (∃ fw, s.b = .done { status := 201, favoriteDoc := some fw } ∧
        ∃ r, s.a = .done r ∧ isDupReject r))

/-- The request body both racing calls submit: product X with key px. -/
def raceBody : AddBody := { product_name := "X", product_id := some "px" }

/-- Racing call A of user 1. -/
def raceCallA : AddCall := { uid := 1, body := raceBody, freshId := "f1", docId := 1, now := 10 }

/-- Racing call B of user 1. -/
def raceCallB : AddCall := { uid := 1, body := raceBody, freshId := "f2", docId := 2, now := 11 }

/-- C2 counterexample: in the race where both pre-checks run before
either save, the losing call receives HTTP 400 — an error status, with
no alreadyExists flag — not the non-error already-exists signal the
claim describes. -/
theorem race_loser_gets_error_status :
    (runRace raceCallA raceCallB [] [.acheck, .bcheck, .awrite, .bwrite]).a =
      .done { status := 201, favoriteDoc := some (addFavoriteDoc 1 raceBody "f1" 1 10) } ∧
    (runRace raceCallA raceCallB [] [.acheck, .bcheck, .awrite, .bwrite]).b =
      .done { status := 400, message := some .produitDejaEnFavoris } ∧
    ({ status := 400, message := some .produitDejaEnFavoris } : Response).status ≠ 200 ∧
    ({ status := 400, message := some .produitDejaEnFavoris } : Response).alreadyExists = false := by
  decide

/-- C2 amended: two adds by the same owner racing on the same supplied
non-empty product key, with identical bodies whose trimmed non-empty
product name and schema-valid document make the saves reach the index,
starting from a store in which the owner holds neither that product
key nor that product name, end under every interleaving of their
pre-check and save steps with exactly one stored favorite for that
key; exactly one call answers 201 and the losing call answers an HTTP
400 duplicate rejection (never silent duplication, never two
successes). -/
theorem addFavorite_race_unique :
    ∀ (uid dA dB tA tB : Nat) (pid fA fB : String) (b : AddBody) (db0 : List Favorite),
      b.product_id = some pid → (pid == "") = false → (b.product_name == "") = false →
      jsTrim b.product_name = b.product_name →
      favValidate (addFavoriteDoc uid b fA dA tA) = true →
      favValidate (addFavoriteDoc uid b fB dB tB) = true →
      db0.any (fun g => g.userId == uid && g.productName == b.product_name) = false →
      db0.any (fun g => g.userId == uid && g.productId == pid) = false →
      ∀ sched ∈ raceSchedules,
        raceConclusion uid pid
          (runRace { uid := uid, body := b, freshId := fA, docId := dA, now := tA }
                   { uid := uid, body := b, freshId := fB, docId := dB, now := tB } db0 sched) := by
  intro uid dA dB tA tB pid fA fB b db0 hpid hpidne hnm htrim hva hvb hname hkey sched hs
  have hfilter : db0.filter (fun g => g.userId == uid && g.productId == pid) = [] := by
    rw [List.filter_eq_nil_iff]
    intro g hg
    exact List.any_eq_false.mp hkey g hg
  simp only [raceSchedules, List.mem_cons, List.not_mem_nil, or_false] at hs
  rcases hs with rfl | rfl | rfl | rfl | rfl | rfl <;>
    simp [runRace, raceStep, addCheckStep, addWriteStep, favSave, raceConclusion, isDupReject,
      addFavoriteDoc_userId, addFavoriteDoc_productId, addFavoriteDoc_productName,
      hpid, orDefault, hpidne, hnm, htrim, hva, hvb, hname, hkey,
      List.any_append, List.filter_append, hfilter]

/-- Concrete instantiation of the amended C2 theorem: user 1 racing two
adds of product key px from an empty store under the schedule where
both pre-checks run before either save. -/
theorem addFavorite_race_unique_witness :
    raceConclusion 1 "px"
      (runRace { uid := 1, body := raceBody, freshId := "f1", docId := 1, now := 10 }
        { uid := 1, body := raceBody, freshId := "f2", docId := 2, now := 11 } []
        [.acheck, .bcheck, .awrite, .bwrite]) :=
  addFavorite_race_unique 1 1 2 10 11 "px" "f1" "f2" raceBody [] (by decide) (by decide)
    (by decide) (by decide) (by decide) (by decide) (by decide) (by decide)
    [.acheck, .bcheck, .awrite, .bwrite] (by decide)

/-- Failure of an axios call to the external analysis engine, with the
axios error message it carries. -/
inductive UpFail where
  | connRefused (message : String)
  | httpError (status : Nat) (detail : Option String) (message : String)
  | timeout (message : String)
  deriving DecidableEq

/-- The error.message field of the axios error. -/
def UpFail.message : UpFail → String
  | .connRefused m => m
  | .httpError _ _ m => m
  | .timeout m => m

/-- Outcome of one axios call to the external engine: response.data on
a 2xx answer, or the failure. -/
inductive UpstreamOutcome (α : Type) where
  | ok (data : α)
  | fail (e : UpFail)
  deriving DecidableEq

/-- Shape of the sentiment payload: the response.data of the upstream
review endpoint, or the degraded fallback built by
nlpService.analyzeReview. -/
structure ReviewResult where
  sentiment : String
  confidence : Int
  error : Option String := none
  deriving DecidableEq

/-- nlpService.analyzeReview: forwards text and skin type, passes the
upstream data through, and on any upstream failure returns the degraded
result with sentiment Indisponible and confidence 0 instead of
throwing. -/
def analyzeReview (text : String) (skinType : String) (up : UpstreamOutcome ReviewResult) : ReviewResult :=
  match up with
  | .ok d => d
  | .fail e => { sentiment := "Indisponible", confidence := 0, error := some e.message }

/-- A JSON response of the sentiment endpoint. -/
structure SentimentResponse where
  status : Nat
  success : Option Bool := none
  message : Option Msg := none
  data : Option ReviewResult := none
  deriving DecidableEq

/-- analysisController.getSentiment (POST /api/analysis/sentiment):
missing or empty text answers 400, otherwise the analyzeReview result
is wrapped in a 200 success envelope. The JS default parameter value
All applies when skinType is absent. -/
def getSentiment (text : Option String) (skinType : Option String) (up : UpstreamOutcome ReviewResult) : SentimentResponse :=
  match text with
  | none => { status := 400, message := some .texteRequis }
  | some t =>
    if t == "" then
      { status := 400, message := some .texteRequis }
    else
      { status := 200, success := some true, data := some (analyzeReview t (skinType.getD "All") up) }

/-- C7 counterexample: with the upstream engine unreachable, the
degraded sentiment value the code returns is the French literal
Indisponible, not the value unavailable stated by the claim, although
the envelope is indeed HTTP 200 with confidence 0. -/
theorem degraded_sentiment_literal_differs :
    (analyzeReview "great product" "oily"
      (.fail (.connRefused "connect ECONNREFUSED 127.0.0.1:8000"))).sentiment = "Indisponible" ∧
    (analyzeReview "great product" "oily"
      (.fail (.connRefused "connect ECONNREFUSED 127.0.0.1:8000"))).sentiment ≠ "unavailable" ∧
    (getSentiment (some "great product") (some "oily")
      (.fail (.connRefused "connect ECONNREFUSED 127.0.0.1:8000"))).status = 200 := by
  refine ⟨rfl, ?_, rfl⟩
  decide

/-- C7 amended: on every upstream failure, analyzeReview returns the
degraded result with sentiment Indisponible, confidence 0 and the
axios message in its error field, and the sentiment endpoint wraps it
in an HTTP 200 success envelope rather than propagating an error. -/
theorem degraded_sentiment_amended :
    ∀ (t : String) (sk : Option String) (e : UpFail),
      analyzeReview t (sk.getD "All") (.fail e) =
        { sentiment := "Indisponible", confidence := 0, error := some e.message } ∧
      (t = "" ∨ getSentiment (some t) sk (.fail e) =
        { status := 200, success := some true,
          data := some { sentiment := "Indisponible", confidence := 0, error := some e.message } }) := by
  intro t sk e
  constructor
  · rfl
  · by_cases h : t = ""
    · exact Or.inl h
    · refine Or.inr ?_
      simp [getSentiment, h, analyzeReview]

/-- Message of the Error thrown by nlpService.findDupes for each
upstream failure: connection refused, upstream 503 still loading, or
the generic analysis error carrying the upstream detail field when
present and the raw axios message otherwise. -/
inductive DupesError where
  | serviceUnavailable
  | serviceLoading
  | analysisError (m : String)
  deriving DecidableEq

/-- The translation nlpService.findDupes applies before throwing. -/
def findDupesThrown (e : UpFail) : DupesError :=
  match e with
  | .connRefused _ => .serviceUnavailable
  | .httpError 503 _ _ => .serviceLoading
  | .httpError _ d m => .analysisError (d.getD m)
  | .timeout m => .analysisError m

/-- One result item of the upstream dupe search; only the fields the
gateway reads are modelled, the rest of the item is opaque. -/
structure DupeItem where
  product_id : Option String := none
  isFavorite : Option Bool := none
  deriving DecidableEq

/-- The response.data of the upstream find_dupes endpoint. -/
structure DupesData where
  count : Option Nat := none
  results : Option (List DupeItem) := none
  deriving DecidableEq

/-- A JSON response of the dupes endpoint. -/
structure DupesResponse where
  status : Nat
  success : Option Bool := none
  message : Option Msg := none
  thrown : Option DupesError := none
  count : Option Nat := none
  data : Option (List DupeItem) := none
  deriving DecidableEq

/-- analysisController.getDupes (POST /api/analysis/dupes). `userId` is
req.userId, which no middleware in the repository sets; `db` is the
favorites store used for the best-effort isFavorite annotation; `up`
the outcome of the upstream call. The Bool output records whether that
upstream call was made. Validation: missing ingredients or a trimmed
length below 5 answers 400 before any upstream call. -/
def getDupes (ingredients : Option String) (userId : Option Nat) (db : List Favorite) (up : UpstreamOutcome DupesData) : DupesResponse × Bool :=
  match ingredients with
  | none => ({ status := 400, success := some false, message := some .ingredientsRequis }, false)
  | some ing =>
    if (jsTrim ing).length < 5 then
      ({ status := 400, success := some false, message := some .ingredientsRequis }, false)
    else
      match up with
      | .fail e =>
        ({ status := 500, success := some false, thrown := some (findDupesThrown e) }, true)
      | .ok d =>
        let annotated : Option (List DupeItem) :=
          match userId, d.results with
          | some uid, some items =>
            let favIds : List String :=
              (db.filter (fun (f : Favorite) => f.userId == uid)).map (fun (f : Favorite) => f.productId)
            some (items.map (fun (p : DupeItem) =>
              { p with isFavorite := some ((p.product_id.map (fun i => favIds.contains i)).getD false) }))
          | _, _ => d.results
        ({ status := 200, success := some true, count := some (d.count.getD 0),
           data := some (annotated.getD []) }, true)

/-- Unfolding of getDupes on a present ingredients text. -/
theorem getDupes_some_eq (s : String) (userId : Option Nat) (db : List Favorite) (up : UpstreamOutcome DupesData) :
    getDupes (some s) userId db up =
      if (jsTrim s).length < 5 then
        ({ status := 400, success := some false, message := some .ingredientsRequis }, false)
      else
        match up with
        | .fail e =>
          ({ status := 500, success := some false, thrown := some (findDupesThrown e) }, true)
        | .ok d =>
          let annotated : Option (List DupeItem) :=
            match userId, d.results with
            | some uid, some items =>
              let favIds : List String :=
                (db.filter (fun (f : Favorite) => f.userId == uid)).map (fun (f : Favorite) => f.productId)
              some (items.map (fun (p : DupeItem) =>
                { p with isFavorite := some ((p.product_id.map (fun i => favIds.contains i)).getD false) }))
            | _, _ => d.results
          ({ status := 200, success := some true, count := some (d.count.getD 0),
             data := some (annotated.getD []) }, true) := rfl

/-- C8 counterexample: the 5-character ingredients text consisting of
the letter a and four spaces is rejected with the 400 validation
response and no upstream call, although it is not shorter than 5
characters: the check applies to the trimmed text. -/
theorem getDupes_five_char_spaces_rejected :
    ("a    ".length = 5) ∧
    (getDupes (some "a    ") none [] (.ok {})).1.status = 400 ∧
    (getDupes (some "a    ") none [] (.ok {})).1.message = some .ingredientsRequis ∧
    (getDupes (some "a    ") none [] (.ok {})).2 = false := by
  refine ⟨rfl, ?_, ?_, ?_⟩ <;> decide

/-- C8 amended: getDupes answers the 400 validation response without
calling the upstream exactly when the ingredients text is missing or
its trimmed length is below 5 characters; in particular the 4-character
text abcd is rejected before any upstream call and the 5-character text
abcde proceeds to the proxy call. -/
theorem getDupes_validation_amended :
    ∀ (ing : Option String) (userId : Option Nat) (db : List Favorite) (up : UpstreamOutcome DupesData),
      ((getDupes ing userId db up =
          ({ status := 400, success := some false, message := some .ingredientsRequis }, false)) ↔
        (ing = none ∨ ∃ s, ing = some s ∧ (jsTrim s).length < 5)) ∧
      (getDupes (some "abcd") userId db up).2 = false ∧
      (getDupes (some "abcd") userId db up).1.status = 400 ∧
      (getDupes (some "abcde") userId db up).2 = true := by
  intro ing userId db up
  refine ⟨⟨?_, ?_⟩, ?_, ?_, ?_⟩
  · intro h
    match ing with
    | none => exact Or.inl rfl
    | some s =>
      refine Or.inr ⟨s, rfl, ?_⟩
      by_contra hge
      rw [getDupes_some_eq, if_neg hge] at h
      match up with
      | .fail e => simp at h
      | .ok d => simp at h
  · intro h
    rcases h with rfl | ⟨s, rfl, hlt⟩
    · rfl
    · rw [getDupes_some_eq, if_pos hlt]
  · rw [getDupes_some_eq, if_pos (by decide)]
  · rw [getDupes_some_eq, if_pos (by decide)]
  · rw [getDupes_some_eq, if_neg (by decide)]
    match up with
    | .fail e => rfl
    | .ok d => rfl

/-- The multipart file part of a scan request, as multer memory storage
delivers it to the handler (buffer contents are opaque; only the byte
size and names matter to the gateway). -/
structure UploadedFile where
  size : Nat
  filename : Option String := none
  originalname : String := ""
  deriving DecidableEq

/-- Opaque JSON returned by the upstream scan endpoint. -/
structure ScanData where
  payload : String
  deriving DecidableEq

/-- Message of the Error thrown by nlpService.scanImage: the upstream
detail field when present, the OCR-unavailable message on a refused
connection, otherwise a generic processing error with the axios
message. -/
inductive ScanError where
  | detailMsg (d : String)
  | ocrUnavailable
  | processingError (m : String)
  deriving DecidableEq

/-- The translation nlpService.scanImage applies before throwing. -/
def scanImageThrown (e : UpFail) : ScanError :=
  match e with
  | .httpError _ (some d) _ => .detailMsg d
  | .connRefused _ => .ocrUnavailable
  | .httpError _ none m => .processingError m
  | .timeout m => .processingError m

/-- A JSON response of the scan endpoint. The 500 branch of the handler
additionally carries a fixed suggestion string, not modelled
separately. -/
structure ScanResponse where
  status : Nat
  success : Option Bool := none
  message : Option Msg := none
  thrown : Option ScanError := none
  data : Option ScanData := none
  deriving DecidableEq

/-- analysisController.scanImage handler, run after the multer stage:
no file answers 400, a file above 10 * 1024 * 1024 bytes answers 400
before the upstream call, otherwise the buffer is forwarded to the
upstream scan endpoint. The Bool output records whether that upstream
call was made. -/
def scanImage (file : Option UploadedFile) (up : UpstreamOutcome ScanData) : ScanResponse × Bool :=
  match file with
  | none => ({ status := 400, success := some false, message := some .aucuneImageFournie }, false)
  | some f =>
    if f.size > 10 * 1024 * 1024 then
      ({ status := 400, success := some false, message := some .imageTropVolumineuse }, false)
    else
      match up with
      | .ok d => ({ status := 200, success := some true, data := some d }, true)
      | .fail e => ({ status := 500, success := some false, thrown := some (scanImageThrown e) }, true)

/-- The multer stage configured in the analysis router: memory storage
with limits.fileSize set to 10 * 1024 * 1024 bytes. A file part within
the limit reaches the handler; a larger one aborts the request with the
LIMIT_FILE_SIZE error, which the express error path turns into an error
response without ever running the handler. -/
def multerSingle (file : Option UploadedFile) : Except ScanResponse (Option UploadedFile) :=
  match file with
  | none => .ok none
  | some f =>
    if f.size > 10 * 1024 * 1024 then
      .error { status := 500, message := some .fileTooLarge }
    else
      .ok (some f)

/-- POST /api/analysis/scan as mounted in the analysis router: the
multer stage followed by the scanImage handler. -/
def scanRoute (file : Option UploadedFile) (up : UpstreamOutcome ScanData) : ScanResponse × Bool :=
  match multerSingle file with
  | .error r => (r, false)
  | .ok f => scanImage f up

/-- C9: a scan payload larger than 10 MiB is rejected with an error
response before any upstream call (the multer limit fires, and the
handler size check would answer 400 even without it), a payload of at
most 10 MiB is forwarded to the upstream, and the boundary payload of
exactly 10 MiB + 1 bytes is rejected with no upstream call. -/
theorem scanRoute_size_boundary :
    ∀ (f : UploadedFile) (up : UpstreamOutcome ScanData),
      (f.size > 10 * 1024 * 1024 →
        scanRoute (some f) up = ({ status := 500, message := some .fileTooLarge }, false) ∧
        scanImage (some f) up =
          ({ status := 400, success := some false, message := some .imageTropVolumineuse }, false)) ∧
      (f.size ≤ 10 * 1024 * 1024 → (scanRoute (some f) up).2 = true) ∧
      scanRoute (some { size := 10 * 1024 * 1024 + 1 }) up =
        ({ status := 500, message := some .fileTooLarge }, false) := by
  intro f up
  refine ⟨?_, ?_, ?_⟩
  · intro h
    constructor
    · simp [scanRoute, multerSingle, h]
    · simp [scanImage, h]
  · intro h
    have hn : ¬ (f.size > 10 * 1024 * 1024) := not_lt.mpr h
    rw [scanRoute]
    simp only [multerSingle, if_neg hn]
    show (scanImage (some f) up).2 = true
    rw [scanImage.eq_def]
    simp only [if_neg hn]
    match up with
    | .ok d => rfl
    | .fail e => rfl
  · simp [scanRoute, multerSingle]

/-- Concrete instantiation of the C9 theorem: the oversized file of
10 MiB + 1 bytes and the within-limit file of exactly 10 MiB, against
an unreachable upstream. -/
theorem scanRoute_size_boundary_witness :
    scanRoute (some { size := 10 * 1024 * 1024 + 1 })
        (.fail (.connRefused "connect ECONNREFUSED 127.0.0.1:8000")) =
      ({ status := 500, message := some .fileTooLarge }, false) ∧
    (scanRoute (some { size := 10 * 1024 * 1024 })
        (.fail (.connRefused "connect ECONNREFUSED 127.0.0.1:8000"))).2 = true :=
  ⟨((scanRoute_size_boundary { size := 10 * 1024 * 1024 + 1 }
      (.fail (.connRefused "connect ECONNREFUSED 127.0.0.1:8000"))).1 (by decide)).1,
   (scanRoute_size_boundary { size := 10 * 1024 * 1024 }
      (.fail (.connRefused "connect ECONNREFUSED 127.0.0.1:8000"))).2.1 (by decide)⟩
